import Mathlib

/-!
Verification of the PaperTrade scalping engine.

Shallow embedding of the execution gateway (`src/execution.ts`), the
strategy core (`src/strategies/ExpirationConvergenceStrategy.ts`), the
quant engine (`src/services/quantEngine.ts`) and the configuration
loader.  JS `number` values that the claims reason about exactly are
modelled as `ℚ`; the one quantity that genuinely needs a square root
(volatility) is modelled over `ℝ`.  JS `Map`s are modelled as
insertion-ordered association lists (`List (String × β)`) with
`Map.get/set/delete` semantics; JS `Set`s as `List String` with
membership.
-/

namespace PaperTrade

/-! ### Configuration defaults (`src/config.ts`, `loadConfig`) -/

namespace CONFIG

def BANKROLL : ℚ := 20
def TRADE_SIZE_PCT : ℚ := 1/10
def MIN_ORDER_SIZE : ℚ := 1
def MIN_ENTRY_PRICE : ℚ := 13/20
def MAX_ENTRY_PRICE : ℚ := 17/20
def MAX_ALLOWED_SPREAD : ℚ := 3/100
def FIXED_PROFIT_TARGET : ℚ := 1/50
def FIXED_STOP_LOSS : ℚ := 1/25
def BREAKEVEN_TRIGGER : ℚ := 3/200
def SESSION_PROFIT_TARGET : ℚ := 1/2
def SESSION_LOSS_LIMIT : ℚ := 2/5
def STABILITY_TICKS_REQUIRED : Nat := 15
def MIN_COOLDOWN_MS : ℚ := 15000
def MIN_TRADE_INTERVAL_MS : ℚ := 5000
def TREND_LOOKBACK_TICKS : Nat := 5

end CONFIG

/-- The mode flag: `loadConfig` reads `PAPER_TRADE: process.env.PAPER_TRADE === 'true'`.
The environment variable is an `Option String` (absent = `none`). -/
def paperTradeFlag (env : Option String) : Bool :=
  env == some "true"

/-! ### Data model (`src/execution.ts`) -/

inductive OrderSide where
  | BUY
  | SELL
deriving DecidableEq, Repr

structure Order where
  id : String
  tokenId : String
  side : OrderSide
  price : ℚ
  size : ℚ
  timestamp : ℚ
deriving DecidableEq, Repr

structure Position where
  tokenId : String
  shares : ℚ
  entryPrice : ℚ
  entryTime : ℚ
deriving DecidableEq, Repr

/-- Paper-trading state of the `ExecutionGateway`. -/
structure GatewayState where
  paperCash : ℚ
  paperPositions : List (String × Position)
  paperOrders : List (String × Order)
  filledPaperOrders : List String
  paperOrderCounter : Nat
  isExecutingTrade : Bool
deriving DecidableEq, Repr

/-! ### JS `Map` helpers (insertion-ordered association lists) -/

/-- JS `Map.get`: first binding of the key. -/
def alGet {β : Type} (m : List (String × β)) (k : String) : Option β :=
  (m.find? (fun p => p.1 == k)).map Prod.snd

/-- JS `Map.set`: replace in place when the key is present, else append. -/
def alSet {β : Type} : List (String × β) → String → β → List (String × β)
  | [], k, v => [(k, v)]
  | (k', v') :: rest, k, v =>
      if k' == k then (k, v) :: rest else (k', v') :: alSet rest k v

/-- JS `Map.delete`: drop every binding of the key. -/
def alDelete {β : Type} (m : List (String × β)) (k : String) : List (String × β) :=
  m.filter (fun p => p.1 != k)

/-- JS `Map.has`. -/
def alHas {β : Type} (m : List (String × β)) (k : String) : Bool :=
  (alGet m k).isSome

/-! ### Execution gateway operations (paper mode) -/

/-- Shared BUY-side position update: average the entry price over the
total share count (`execution.ts` lines 204-221 and 284-303). -/
def posAddBuy (positions : List (String × Position)) (key tok : String)
    (price size now : ℚ) : List (String × Position) :=
  match alGet positions key with
  | some existing =>
      let totalShares := existing.shares + size
      let avgPrice := ((existing.entryPrice * existing.shares) + (price * size)) / totalShares
      alSet positions key ⟨tok, totalShares, avgPrice, now⟩
  | none => alSet positions key ⟨tok, size, price, now⟩

/-- Embeds `executePaperFAK` (`execution.ts` lines 194-252).  Returns the
`executed` flag together with the updated state. -/
def executePaperFAK (s : GatewayState) (tok : String) (side : OrderSide)
    (price size now : ℚ) : Bool × GatewayState :=
  match side with
  | OrderSide.BUY =>
      let cost := price * size
      if s.paperCash ≥ cost then
        (true, { s with
          paperCash := s.paperCash - cost,
          paperPositions := posAddBuy s.paperPositions tok tok price size now })
      else (false, s)
  | OrderSide.SELL =>
      match alGet s.paperPositions tok with
      | some position =>
          if position.shares ≥ size then
            let s' := { s with paperCash := s.paperCash + price * size }
            -- `position.shares - size < 0.000001` deletes the position
            if position.shares - size < 1/1000000 then
              (true, { s' with paperPositions := alDelete s'.paperPositions tok })
            else
              let reduced := { position with shares := position.shares - size }
              (true, { s' with paperPositions := alSet s'.paperPositions tok reduced })
          else (false, s)
      | none => (false, s)

/-- Embeds `placePaperOrder` (`execution.ts` lines 160-176): always succeeds,
no cash check. -/
def placePaperOrder (s : GatewayState) (tok : String) (side : OrderSide)
    (price size now : ℚ) : GatewayState × String :=
  let orderId := "PAPER_" ++ toString s.paperOrderCounter
  ({ s with
      paperOrderCounter := s.paperOrderCounter + 1,
      paperOrders := s.paperOrders ++ [(orderId, ⟨orderId, tok, side, price, size, now⟩)] },
   orderId)

/-- Embeds `cancelPaperOrder` (`execution.ts` lines 181-189). -/
def cancelPaperOrder (s : GatewayState) (orderId : String) : GatewayState × Bool :=
  if alHas s.paperOrders orderId then
    ({ s with paperOrders := alDelete s.paperOrders orderId }, true)
  else (s, false)

/-- The expression `price || 0.5` in `placeFOKOrder`: a missing or zero price falls
back to `0.5`. -/
def fokPriceEff (price? : Option ℚ) : ℚ :=
  match price? with
  | some p => if p = 0 then 1/2 else p
  | none => 1/2

/-- The sizing rule `size = side === 'BUY' ? amount / (price || 0.5) : amount`. -/
def fokSize (side : OrderSide) (amount priceEff : ℚ) : ℚ :=
  match side with
  | OrderSide.BUY => amount / priceEff
  | OrderSide.SELL => amount

/-- Embeds `placeFOKOrder`, paper branch (`execution.ts` lines 92-130).
On any failure (`throw`) the `finally` clause restores the
trade-in-progress flag, so the observable state is the input state:
we model failure as `(s, none)`. -/
def placeFOKOrder (s : GatewayState) (tok : String) (side : OrderSide)
    (amount : ℚ) (price? : Option ℚ) (now : ℚ) : GatewayState × Option String :=
  if s.isExecutingTrade then (s, none)
  else
    let res := executePaperFAK s tok side (fokPriceEff price?)
      (fokSize side amount (fokPriceEff price?)) now
    if res.1 then
      let orderId := "PAPER_FOK_" ++ toString res.2.paperOrderCounter
      ({ res.2 with
          paperOrderCounter := res.2.paperOrderCounter + 1,
          filledPaperOrders := res.2.filledPaperOrders ++ [orderId] },
       some orderId)
    else (s, none)

/-- The per-order fill rule inside `checkPaperFills`
(`execution.ts` lines 275-310): a BUY fills at `min(ask, limit)` iff
`ask > 0 ∧ ask ≤ limit`; a SELL fills at `max(bid, limit)` iff
`bid > 0 ∧ bid ≥ limit`. -/
def fillPriceFor (o : Order) (ask bid : ℚ) : Option ℚ :=
  match o.side with
  | OrderSide.BUY =>
      if ask > 0 ∧ ask ≤ o.price then some (min ask o.price) else none
  | OrderSide.SELL =>
      if bid > 0 ∧ bid ≥ o.price then some (max bid o.price) else none

/-- State change applied when an order fills inside `checkPaperFills`
(`execution.ts` lines 275-327), not including the bookkeeping on
`paperOrders` / `filledPaperOrders`. -/
def applyPaperFill (s : GatewayState) (tok : String) (o : Order)
    (fillPrice now : ℚ) : GatewayState :=
  match o.side with
  | OrderSide.BUY =>
      { s with
        paperCash := s.paperCash - fillPrice * o.size,
        paperPositions := posAddBuy s.paperPositions tok o.tokenId fillPrice o.size now }
  | OrderSide.SELL =>
      let s' := { s with paperCash := s.paperCash + fillPrice * o.size }
      match alGet s'.paperPositions tok with
      | some position =>
          if position.shares ≤ o.size then
            { s' with paperPositions := alDelete s'.paperPositions tok }
          else
            let reduced := { position with shares := position.shares - o.size }
            { s' with paperPositions := alSet s'.paperPositions tok reduced }
      | none => s'

/-- Iteration of `checkPaperFills` over the map entries
(`execution.ts` lines 258-347).  The loop returns after the FIRST
fill; an entry already in the filled set is purged and skipped. -/
def checkPaperFillsGo (tok : String) (ask bid now : ℚ) :
    List (String × Order) → GatewayState → GatewayState × Option Position
  | [], s => (s, none)
  | (orderId, o) :: rest, s =>
      if o.tokenId != tok then checkPaperFillsGo tok ask bid now rest s
      else if s.filledPaperOrders.contains orderId then
        checkPaperFillsGo tok ask bid now rest
          { s with paperOrders := alDelete s.paperOrders orderId }
      else
        match fillPriceFor o ask bid with
        | none => checkPaperFillsGo tok ask bid now rest s
        | some fp =>
            let s₁ := applyPaperFill s tok o fp now
            let s₂ := { s₁ with
              filledPaperOrders := s₁.filledPaperOrders ++ [orderId],
              paperOrders := alDelete s₁.paperOrders orderId }
            (s₂, alGet s₂.paperPositions tok)

/-- Embeds `checkPaperFills` (`execution.ts` lines 258-347). -/
def checkPaperFills (s : GatewayState) (tok : String) (ask bid now : ℚ) :
    GatewayState × Option Position :=
  checkPaperFillsGo tok ask bid now s.paperOrders s

/-- Embeds `clearAllState`, paper branch (`execution.ts` lines 507-524):
orders, positions and the filled set are wiped; cash and the order
counter survive. -/
def clearAllState (s : GatewayState) : GatewayState :=
  { s with
    paperOrders := []
    paperPositions := []
    filledPaperOrders := []
    isExecutingTrade := false }

/-- Gateway state at construction: `paperCash = CONFIG.BANKROLL`. -/
def initialGateway : GatewayState :=
  { paperCash := CONFIG.BANKROLL
    paperPositions := []
    paperOrders := []
    filledPaperOrders := []
    paperOrderCounter := 0
    isExecutingTrade := false }

/-! ### Strategy data model (`ExpirationConvergenceStrategy.ts`) -/

inductive TradeStatus where
  | PENDING
  | FILLED
  | CANCELLED
deriving DecidableEq, Repr

inductive ExitType where
  | LIMIT
  | STOP_LOSS
  | HOLD_TO_MATURITY
  | BREAKEVEN
deriving DecidableEq, Repr

inductive TokenType where
  | UP
  | DOWN
deriving DecidableEq, Repr

/-- The ledger record `TradeRecord`, including the two dynamic fields that the strategy
attaches via `(record as any)`: `fixedStopDist` (absent until set) and
`breakEvenTriggered` (read as `... || false`). -/
structure TradeRecord where
  id : String
  timestamp : ℚ
  marketSlug : String
  side : OrderSide
  tokenId : String
  tokenType : TokenType
  price : ℚ
  size : ℚ
  orderId : String
  status : TradeStatus
  pairedWith : Option String
  exitType : Option ExitType
  fixedStopDist : Option ℚ
  breakEvenTriggered : Bool
deriving DecidableEq, Repr

structure CircuitBreakerState where
  isCoolingDown : Bool
  crashLowPrice : ℚ
  stabilityCounter : Nat
  lastStopLossTime : ℚ
  crashTokenId : String
  lastTradeTime : ℚ
deriving DecidableEq, Repr

inductive LockReason where
  | PROFIT_TARGET
  | LOSS_LIMIT
deriving DecidableEq, Repr

structure SessionState where
  sessionPnL : ℚ
  sessionStartTime : ℚ
  isSessionLocked : Bool
  lockReason : Option LockReason
  tradesThisSession : Nat
deriving DecidableEq, Repr

structure PriceHistoryBuffer where
  upBids : List ℚ
  downBids : List ℚ
  maxSize : Nat
deriving DecidableEq, Repr

/-- One sample of the Quant Engine price history. -/
structure PricePoint where
  price : ℚ
  timestamp : ℚ
deriving DecidableEq, Repr

/-- Mutable state of `ExpirationConvergenceStrategy`, including the
price-history ring of the `QuantEngine` instance it owns. -/
structure StrategyState where
  tradeRecords : List (String × TradeRecord)
  activePositions : List (String × TradeRecord)
  orderCounter : Nat
  isTradingLocked : Bool
  circuitBreaker : CircuitBreakerState
  sessionState : SessionState
  priceHistory : PriceHistoryBuffer
  quantHistory : List PricePoint
deriving DecidableEq, Repr

structure Prices where
  upAsk : ℚ
  upBid : ℚ
  downAsk : ℚ
  downBid : ℚ
deriving DecidableEq, Repr

structure BookTop where
  bestAsk : ℚ
  bestBid : ℚ
deriving DecidableEq, Repr

structure MarketInfo where
  eventSlug : String
  upTokenId : String
  downTokenId : String
deriving DecidableEq, Repr

structure EnterDecision where
  shouldTrade : Bool
  direction : Option TokenType
deriving DecidableEq, Repr

/-! ### Strategy operations -/

/-- Stop distance read in `updateOrderStatus` (lines 885-890):
`if ((activePosition as any).fixedStopDist) stopDistance = ...` — JS
truthiness makes a stored `0` fall back to `CONFIG.FIXED_STOP_LOSS`. -/
def jsStopDistance (r : TradeRecord) : ℚ :=
  match r.fixedStopDist with
  | some d => if d = 0 then CONFIG.FIXED_STOP_LOSS else d
  | none => CONFIG.FIXED_STOP_LOSS

/-- Embeds `updateSessionPnL` (lines 188-219). -/
def updateSessionPnL (ss : SessionState) (pnlChange : ℚ) : SessionState :=
  let ss₁ := { ss with
    sessionPnL := ss.sessionPnL + pnlChange,
    tradesThisSession := ss.tradesThisSession + 1 }
  let ss₂ :=
    if ss₁.sessionPnL ≥ CONFIG.SESSION_PROFIT_TARGET then
      { ss₁ with isSessionLocked := true, lockReason := some LockReason.PROFIT_TARGET }
    else ss₁
  if ss₂.sessionPnL ≤ -CONFIG.SESSION_LOSS_LIMIT then
    { ss₂ with isSessionLocked := true, lockReason := some LockReason.LOSS_LIMIT }
  else ss₂

/-- Embeds `triggerCircuitBreaker` (lines 373-387). -/
def triggerCircuitBreaker (cb : CircuitBreakerState) (tokenId : String)
    (crashPrice now : ℚ) : CircuitBreakerState :=
  { cb with
    isCoolingDown := true,
    crashLowPrice := crashPrice,
    stabilityCounter := 0,
    lastStopLossTime := now,
    crashTokenId := tokenId }

/-- Embeds `QuantEngine.updatePrice` (`quantEngine.ts` lines 15-20): push and
shift when the 60-sample capacity is exceeded. -/
def updatePrice (h : List PricePoint) (price now : ℚ) : List PricePoint :=
  let h' := h ++ [⟨price, now⟩]
  if 60 < h'.length then h'.tail else h'

/-- Embeds `updatePriceHistory` (lines 244-259): push each positive bid,
shifting when the buffer exceeds `maxSize`. -/
def updatePriceHistory (buf : PriceHistoryBuffer) (upBid downBid : ℚ) :
    PriceHistoryBuffer :=
  let push := fun (l : List ℚ) (x : ℚ) =>
    if 0 < x then
      let l' := l ++ [x]
      if buf.maxSize < l'.length then l'.tail else l'
    else l
  { buf with upBids := push buf.upBids upBid, downBids := push buf.downBids downBid }

/-- Embeds `hasPendingTrades` (lines 460-500).  Reads the gateway cash; note
that the final cash check compares `availableCash` with
`availableCash * 0.10` and therefore only fires for negative cash. -/
def hasPendingTrades (st : StrategyState) (availableCash : ℚ) : Bool :=
  if st.isTradingLocked then true
  else
    let records := st.tradeRecords.map Prod.snd
    let buyOrders := records.filter
      (fun r => r.side == OrderSide.BUY && r.status == TradeStatus.FILLED)
    let pendingPair := buyOrders.any (fun buy =>
      match records.find? (fun r =>
          r.pairedWith == some buy.id && r.status == TradeStatus.FILLED) with
      | some _ => false
      | none =>
          match records.find? (fun r =>
              r.pairedWith == some buy.id && r.status == TradeStatus.PENDING) with
          | some _ => true
          | none => alHas st.activePositions buy.id)
    if pendingPair then true
    else if 0 < st.activePositions.length then true
    else
      let minTradeAmount := availableCash * (1/10)
      if availableCash < minTradeAmount then true
      else false

/-- Embeds `checkCircuitBreaker` (lines 315-367).  Returns the updated state
and the `skip this tick` flag (`true` = still cooling down). -/
def checkCircuitBreaker (st : StrategyState) (currentBid now : ℚ) :
    StrategyState × Bool :=
  let cb := st.circuitBreaker
  if !cb.isCoolingDown then (st, false)
  else
    let timeSinceStopLoss := now - cb.lastStopLossTime
    if timeSinceStopLoss < CONFIG.MIN_COOLDOWN_MS then
      let cb' :=
        if currentBid < cb.crashLowPrice ∧ 0 < currentBid then
          { cb with crashLowPrice := currentBid, stabilityCounter := 0 }
        else if cb.crashLowPrice < currentBid then
          { cb with stabilityCounter := cb.stabilityCounter + 1 }
        else cb
      ({ st with circuitBreaker := cb' }, true)
    else if currentBid < cb.crashLowPrice ∧ 0 < currentBid then
      ({ st with circuitBreaker :=
          { cb with crashLowPrice := currentBid, stabilityCounter := 0 } }, true)
    else
      let cb₂ :=
        if cb.crashLowPrice < currentBid then
          { cb with stabilityCounter := cb.stabilityCounter + 1 }
        else cb
      if CONFIG.STABILITY_TICKS_REQUIRED ≤ cb₂.stabilityCounter then
        ({ st with circuitBreaker :=
            { cb₂ with
              isCoolingDown := false,
              stabilityCounter := 0,
              crashLowPrice := 0,
              crashTokenId := "" } }, false)
      else ({ st with circuitBreaker := cb₂ }, true)

def noTrade : EnterDecision := { shouldTrade := false, direction := none }

/-- Gates of `shouldEnterTrade` after the hard price gates
(lines 558-620): quant price update, circuit breaker, rate limiter,
pending trades, time gate. -/
def shouldEnterTradeCore (st : StrategyState) (spot timeRemainingSeconds now cash : ℚ)
    (direction : TokenType) : StrategyState × EnterDecision :=
  let st₂ := { st with quantHistory := updatePrice st.quantHistory spot now }
  if st₂.circuitBreaker.isCoolingDown then (st₂, noTrade)
  else
    let timeSinceLastTrade := now - st₂.circuitBreaker.lastTradeTime
    if 0 < st₂.circuitBreaker.lastTradeTime ∧
        timeSinceLastTrade < CONFIG.MIN_TRADE_INTERVAL_MS then (st₂, noTrade)
    else if hasPendingTrades st₂ cash then (st₂, noTrade)
    else if timeRemainingSeconds ≤ 150 then (st₂, noTrade)
    else (st₂, { shouldTrade := true, direction := some direction })

/-- Embeds `shouldEnterTrade` (lines 508-620).  `cash` is the gateway's
`getPaperCash()` read inside `hasPendingTrades`. -/
def shouldEnterTrade (st : StrategyState) (spot strike timeRemainingSeconds : ℚ)
    (currentPrices : Option Prices) (now cash : ℚ) : StrategyState × EnterDecision :=
  if st.sessionState.isSessionLocked then (st, noTrade)
  else
    let distance := spot - strike
    let direction := if 0 < distance then TokenType.UP else TokenType.DOWN
    match currentPrices with
    | some p =>
        let currentAsk := match direction with
          | TokenType.UP => p.upAsk
          | TokenType.DOWN => p.downAsk
        let st₁ := { st with priceHistory := updatePriceHistory st.priceHistory p.upBid p.downBid }
        if 0 < currentAsk ∧ currentAsk < CONFIG.MIN_ENTRY_PRICE then (st₁, noTrade)
        else if 0 < currentAsk ∧ CONFIG.MAX_ENTRY_PRICE < currentAsk then (st₁, noTrade)
        else shouldEnterTradeCore st₁ spot timeRemainingSeconds now cash direction
    | none => shouldEnterTradeCore st spot timeRemainingSeconds now cash direction

/-- JS `Math.round`: round half towards positive infinity. -/
def jsRound (x : ℚ) : ℤ := Int.floor (x + 1/2)

/-- Rounding `Math.round(x * 10000) / 10000`. -/
def round4 (x : ℚ) : ℚ := (jsRound (x * 10000) : ℚ) / 10000

/-- Embeds `executeTrade` (lines 626-839), with the refreshed top-of-book for
the chosen token supplied as `book`.  Returns the strategy state, the
gateway state, and the `(buyOrderId, sellOrderId)` pair on success. -/
def executeTrade (st : StrategyState) (gw : GatewayState) (mi : MarketInfo)
    (direction : TokenType) (book : BookTop) (now : ℚ) :
    StrategyState × GatewayState × Option (String × String) :=
  if hasPendingTrades st gw.paperCash then (st, gw, none)
  else if st.circuitBreaker.isCoolingDown then (st, gw, none)
  else
    let st₁ := { st with isTradingLocked := true }
    let tokenId := match direction with
      | TokenType.UP => mi.upTokenId
      | TokenType.DOWN => mi.downTokenId
    let buyPrice := book.bestAsk
    let currentBid := book.bestBid
    let spread := buyPrice - currentBid
    if buyPrice ≤ 0 then ({ st₁ with isTradingLocked := false }, gw, none)
    else if CONFIG.MAX_ALLOWED_SPREAD < spread then
      ({ st₁ with isTradingLocked := false }, gw, none)
    else
      let availableCash := gw.paperCash
      let tradeAmount₀ := availableCash * CONFIG.TRADE_SIZE_PCT
      if tradeAmount₀ < CONFIG.MIN_ORDER_SIZE ∧ availableCash < CONFIG.MIN_ORDER_SIZE then
        ({ st₁ with isTradingLocked := false }, gw, none)
      else
        let tradeAmount :=
          if tradeAmount₀ < CONFIG.MIN_ORDER_SIZE then CONFIG.MIN_ORDER_SIZE else tradeAmount₀
        let buySize := tradeAmount / buyPrice
        let roundedBuyPrice := round4 buyPrice
        let roundedBuySize := round4 buySize
        let finalBuyAmount := roundedBuyPrice * roundedBuySize
        let shouldPlaceSell := buyPrice < 99/100
        let sellPrice := round4 (roundedBuyPrice + CONFIG.FIXED_PROFIT_TARGET)
        let cappedSellPrice := min sellPrice (99/100)
        let fokResult := placeFOKOrder gw tokenId OrderSide.BUY finalBuyAmount (some roundedBuyPrice) now
        match fokResult.2 with
        | none => ({ st₁ with isTradingLocked := false }, fokResult.1, none)
        | some buyOrderId =>
            let gw₁ := fokResult.1
            let st₂ := { st₁ with circuitBreaker :=
              { st₁.circuitBreaker with lastTradeTime := now } }
            let buyId := "trade_" ++ toString st₂.orderCounter
            let buyRecord : TradeRecord :=
              { id := buyId, timestamp := now, marketSlug := mi.eventSlug,
                side := OrderSide.BUY, tokenId := tokenId, tokenType := direction,
                price := roundedBuyPrice, size := roundedBuySize,
                orderId := buyOrderId, status := TradeStatus.FILLED,
                pairedWith := none, exitType := none,
                fixedStopDist := some CONFIG.FIXED_STOP_LOSS,
                breakEvenTriggered := false }
            let st₃ := { st₂ with
              orderCounter := st₂.orderCounter + 1,
              tradeRecords := alSet st₂.tradeRecords buyId buyRecord,
              activePositions := alSet st₂.activePositions buyId buyRecord }
            if shouldPlaceSell then
              let placed := placePaperOrder gw₁ tokenId OrderSide.SELL cappedSellPrice roundedBuySize now
              let sellId := "trade_" ++ toString st₃.orderCounter
              let sellRecord : TradeRecord :=
                { id := sellId, timestamp := now, marketSlug := mi.eventSlug,
                  side := OrderSide.SELL, tokenId := tokenId, tokenType := direction,
                  price := cappedSellPrice, size := roundedBuySize,
                  orderId := placed.2, status := TradeStatus.PENDING,
                  pairedWith := some buyId, exitType := some ExitType.LIMIT,
                  fixedStopDist := none, breakEvenTriggered := false }
              let st₄ := { st₃ with
                orderCounter := st₃.orderCounter + 1,
                tradeRecords := alSet st₃.tradeRecords sellId sellRecord }
              (st₄, placed.1, some (buyOrderId, placed.2))
            else
              ({ st₃ with isTradingLocked := false }, gw₁, some (buyOrderId, ""))

/-- Replace the record stored under `r.id` where present.  Models JS
mutation of the shared record object, which is aliased by the
`tradeRecords` and `activePositions` maps. -/
def updateWherePresent (m : List (String × TradeRecord)) (r : TradeRecord) :
    List (String × TradeRecord) :=
  if alHas m r.id then alSet m r.id r else m

/-- The `find` over `tradeRecords.values()` for a PENDING paired SELL
(lines 936-938 and 1012-1014). -/
def findPendingSell (records : List (String × TradeRecord)) (buyId : String) :
    Option TradeRecord :=
  (records.map Prod.snd).find? (fun x =>
    x.pairedWith == some buyId && x.side == OrderSide.SELL &&
    x.status == TradeStatus.PENDING)

/-- One iteration of the position-monitoring loop in
`updateOrderStatus` (lines 874-1028): breakeven trigger, stop-loss
exit (with paired-sell cancel, FAK exit, session P&L and circuit
breaker), and hold-to-maturity.  `r` is the record taken from the
active-position list; `book` is the freshly fetched top-of-book. -/
def monitorPosition (st : StrategyState) (gw : GatewayState) (r : TradeRecord)
    (book : BookTop) (timeRemaining? : Option ℚ) (now : ℚ) :
    StrategyState × GatewayState :=
  let currentBid := book.bestBid
  let entryPrice := r.price
  let stopDistance₀ := jsStopDistance r
  let currentProfit := currentBid - entryPrice
  let breakEvenTriggered := r.breakEvenTriggered
  let trig := !breakEvenTriggered ∧ CONFIG.BREAKEVEN_TRIGGER ≤ currentProfit
  let r₁ := if trig then { r with breakEvenTriggered := true, fixedStopDist := some 0 } else r
  let stopDistance := if trig then 0 else stopDistance₀
  let st₁ := { st with
    tradeRecords := updateWherePresent st.tradeRecords r₁,
    activePositions := updateWherePresent st.activePositions r₁ }
  let stopLossPrice := entryPrice - stopDistance
  if 0 < currentBid ∧ currentBid < stopLossPrice then
    let isBreakeven := breakEvenTriggered ∧ entryPrice - 1/200 ≤ currentBid
    let afterCancel :=
      match findPendingSell st₁.tradeRecords r.id with
      | some ps =>
          let cancelled := (cancelPaperOrder gw ps.orderId).1
          let ps' := { ps with status := TradeStatus.CANCELLED }
          ({ st₁ with tradeRecords := updateWherePresent st₁.tradeRecords ps' }, cancelled)
      | none => (st₁, gw)
    let st₂ := afterCancel.1
    let gw₂ := afterCancel.2
    let exitPrice := max (1/100) (currentBid - 1/50)
    let exitSize := r.size
    let fak := executePaperFAK gw₂ r.tokenId OrderSide.SELL exitPrice exitSize now
    if fak.1 then
      let slId := "trade_" ++ toString st₂.orderCounter
      let slRecord : TradeRecord :=
        { id := slId, timestamp := now, marketSlug := r.marketSlug,
          side := OrderSide.SELL, tokenId := r.tokenId, tokenType := r.tokenType,
          price := exitPrice, size := exitSize,
          orderId := (if isBreakeven then "BREAKEVEN_" else "STOP_LOSS_") ++ toString now,
          status := TradeStatus.FILLED, pairedWith := some r.id,
          exitType := some (if isBreakeven then ExitType.BREAKEVEN else ExitType.STOP_LOSS),
          fixedStopDist := none, breakEvenTriggered := false }
      let st₃ := { st₂ with
        orderCounter := st₂.orderCounter + 1,
        tradeRecords := alSet st₂.tradeRecords slId slRecord,
        activePositions := alDelete st₂.activePositions r.id }
      let pnl := (exitPrice - entryPrice) * exitSize
      let st₄ := { st₃ with sessionState := updateSessionPnL st₃.sessionState pnl }
      let st₅ :=
        if !isBreakeven then
          { st₄ with circuitBreaker := triggerCircuitBreaker st₄.circuitBreaker r.tokenId currentBid now }
        else st₄
      ({ st₅ with isTradingLocked := false }, fak.2)
    else ({ st₂ with isTradingLocked := false }, fak.2)
  else
    match timeRemaining? with
    | some t =>
        if t < 45 ∧ 94/100 < currentBid then
          match findPendingSell st₁.tradeRecords r.id with
          | some ps =>
              let cancelled := (cancelPaperOrder gw ps.orderId).1
              let ps' := { ps with status := TradeStatus.CANCELLED,
                                   exitType := some ExitType.HOLD_TO_MATURITY }
              ({ st₁ with
                  tradeRecords := updateWherePresent st₁.tradeRecords ps',
                  isTradingLocked := false }, cancelled)
          | none => (st₁, gw)
        else (st₁, gw)
    | none => (st₁, gw)

/-- Embeds `resetForNewMarket` (lines 1175-1235) followed by the gateway's
`clearAllState`.  The strategy's own `priceHistory` buffer is rebuilt
empty; its `quantHistory` (the QuantEngine ring) is untouched — the
source contains no reset call into the QuantEngine. -/
def resetForNewMarket (st : StrategyState) (gw : GatewayState) (now : ℚ) :
    StrategyState × GatewayState :=
  let st' := { st with
    activePositions := [],
    tradeRecords := [],
    isTradingLocked := false,
    circuitBreaker :=
      { isCoolingDown := false, crashLowPrice := 0, stabilityCounter := 0,
        lastStopLossTime := 0, crashTokenId := "", lastTradeTime := 0 },
    sessionState :=
      { sessionPnL := 0, sessionStartTime := now, isSessionLocked := false,
        lockReason := none, tradesThisSession := 0 },
    priceHistory := { upBids := [], downBids := [], maxSize := CONFIG.TREND_LOOKBACK_TICKS } }
  (st', clearAllState gw)

/-! ### Quant engine volatility (`quantEngine.ts` lines 27-55) -/

/-- First differences of the sampled prices. -/
def priceChanges : List PricePoint → List ℚ
  | [] => []
  | [_] => []
  | a :: b :: rest => (b.price - a.price) :: priceChanges (b :: rest)

/-- The span `(last.timestamp - first.timestamp) / 1000`. -/
def spanSeconds (h : List PricePoint) : ℚ :=
  ((h.getLast?.map PricePoint.timestamp).getD 0 -
   (h.head?.map PricePoint.timestamp).getD 0) / 1000

/-- The rate `timeSpanSeconds > 0 ? (length / timeSpanSeconds) * 60 : 60`. -/
def ticksPerMinute (h : List PricePoint) : ℚ :=
  if 0 < spanSeconds h then ((h.length : ℚ) / spanSeconds h) * 60 else 60

/-- Embeds `QuantEngine.getVolatilityPerMinute`. -/
noncomputable def getVolatilityPerMinute (h : List PricePoint) : ℝ :=
  if h.length < 5 then 10
  else
    let changes := priceChanges h
    let n : ℚ := (changes.length : ℚ)
    let meanChange := changes.sum / n
    let variance := (changes.map (fun b => (b - meanChange) ^ 2)).sum / n
    let stdDevPerTick := Real.sqrt (variance : ℝ)
    let volatilityPerMinute := stdDevPerTick * Real.sqrt ((ticksPerMinute h : ℚ) : ℝ)
    max 5 volatilityPerMinute

/-- Mean of a list, written from the spec's σ_tick description. -/
def specMean (l : List ℚ) : ℚ := l.sum / (l.length : ℚ)

/-- Population standard deviation `√(Σ(Δᵢ − μ)² / n)`, written from
the spec's words. -/
noncomputable def specPopStdDev (l : List ℚ) : ℝ :=
  Real.sqrt (((l.map (fun x => (x - specMean l) ^ 2)).sum / (l.length : ℚ) : ℚ) : ℝ)

/-- The rate `ticks_per_minute = (n / observed_span_seconds) × 60`, written
from the spec's words. -/
def specTicksPerMinute (h : List PricePoint) : ℚ :=
  ((h.length : ℚ) / spanSeconds h) * 60

/-! ### Concrete states used by the theorems -/

def freshBreaker : CircuitBreakerState :=
  { isCoolingDown := false, crashLowPrice := 0, stabilityCounter := 0,
    lastStopLossTime := 0, crashTokenId := "", lastTradeTime := 0 }

def freshSession : SessionState :=
  { sessionPnL := 0, sessionStartTime := 0, isSessionLocked := false,
    lockReason := none, tradesThisSession := 0 }

def freshBuffer : PriceHistoryBuffer :=
  { upBids := [], downBids := [], maxSize := CONFIG.TREND_LOOKBACK_TICKS }

/-- A strategy state as built by the constructor: everything empty. -/
def freshStrategy : StrategyState :=
  { tradeRecords := [], activePositions := [], orderCounter := 0,
    isTradingLocked := false, circuitBreaker := freshBreaker,
    sessionState := freshSession, priceHistory := freshBuffer, quantHistory := [] }

/-- Gateway state holding one open BUY limit order. -/
def oneBuyOrder : Order :=
  { id := "PAPER_0", tokenId := "T", side := OrderSide.BUY,
    price := 1/2, size := 10, timestamp := 0 }

def oneBuyGateway : GatewayState :=
  { paperCash := 20, paperPositions := [], paperOrders := [("PAPER_0", oneBuyOrder)],
    filledPaperOrders := [], paperOrderCounter := 1, isExecutingTrade := false }

/-- C1 example: a filled BUY at entry 0.70 for 2 shares, stop distance
stored as the fixed 0.04. -/
def c1Buy : TradeRecord :=
  { id := "trade_0", timestamp := 0, marketSlug := "m", side := OrderSide.BUY,
    tokenId := "T", tokenType := TokenType.UP, price := 7/10, size := 2,
    orderId := "PAPER_FOK_0", status := TradeStatus.FILLED, pairedWith := none,
    exitType := none, fixedStopDist := some CONFIG.FIXED_STOP_LOSS,
    breakEvenTriggered := false }

def c1Strategy : StrategyState :=
  { tradeRecords := [("trade_0", c1Buy)], activePositions := [("trade_0", c1Buy)],
    orderCounter := 1, isTradingLocked := true, circuitBreaker := freshBreaker,
    sessionState := freshSession, priceHistory := freshBuffer, quantHistory := [] }

def c1Gateway : GatewayState :=
  { paperCash := 93/5, paperPositions := [("T", ⟨"T", 2, 7/10, 0⟩)],
    paperOrders := [], filledPaperOrders := ["PAPER_FOK_0"],
    paperOrderCounter := 1, isExecutingTrade := false }

/-- First monitor observation: best bid 0.72, profit 0.02 ≥ 0.015
fires the breakeven trigger. -/
def c1Step1 : StrategyState × GatewayState :=
  monitorPosition c1Strategy c1Gateway c1Buy ⟨73/100, 72/100⟩ none 1000

/-- The monitored record after the breakeven trigger. -/
def c1Rec1 : TradeRecord :=
  (alGet (c1Step1.1).activePositions "trade_0").getD c1Buy

/-- Second monitor observation: best bid 0.69, strictly between 0 and
the entry price 0.70. -/
def c1Step2 : StrategyState × GatewayState :=
  monitorPosition c1Step1.1 c1Step1.2 c1Rec1 ⟨70/100, 69/100⟩ none 2000

/-- Stability count including the current observation, used to state
the circuit-breaker release condition. -/
def stabilityObserved (st : StrategyState) (bid : ℚ) : Nat :=
  if st.circuitBreaker.crashLowPrice < bid then st.circuitBreaker.stabilityCounter + 1
  else st.circuitBreaker.stabilityCounter

/-- C4/C7 examples: a state with the breaker engaged. -/
def coolingStrategy : StrategyState :=
  { freshStrategy with circuitBreaker :=
      { isCoolingDown := true, crashLowPrice := 3/5, stabilityCounter := 4,
        lastStopLossTime := 0, crashTokenId := "T", lastTradeTime := 0 } }

/-- C5 example: two open BUY limit orders on the same token, placed
from the initial gateway state. -/
def twoOrdersGateway : GatewayState :=
  (placePaperOrder (placePaperOrder initialGateway "T" OrderSide.BUY (1/2) 10 0).1
    "T" OrderSide.BUY (1/2) 10 0).1

def c5Once : GatewayState := (checkPaperFills twoOrdersGateway "T" (2/5) 0 1).1

def c5Twice : GatewayState := (checkPaperFills c5Once "T" (2/5) 0 1).1

/-- C6 example: a dirty strategy state whose QuantEngine ring holds a
sample. -/
def c6Strategy : StrategyState :=
  { freshStrategy with quantHistory := [⟨100, 0⟩] }

/-- C9 example history: five samples, one second apart. -/
def c9History : List PricePoint :=
  [⟨100, 0⟩, ⟨101, 1000⟩, ⟨99, 2000⟩, ⟨102, 3000⟩, ⟨102, 4000⟩]

/-! ### Theorems -/

/-- Helper: `executePaperFAK` only touches cash and positions. -/
theorem executePaperFAK_keeps_orders (s : GatewayState) (tok : String)
    (side : OrderSide) (price size now : ℚ) :
    ((executePaperFAK s tok side price size now).2).paperOrders = s.paperOrders
  ∧ ((executePaperFAK s tok side price size now).2).filledPaperOrders = s.filledPaperOrders
  ∧ ((executePaperFAK s tok side price size now).2).paperOrderCounter = s.paperOrderCounter := by
  cases side
  · simp only [executePaperFAK]
    split <;> simp
  · simp only [executePaperFAK]
    cases hg : alGet s.paperPositions tok
    · simp
    · dsimp only
      split
      · split <;> simp
      · simp

/-- Claim C8 (code bug): with `PAPER_TRADE` absent from the
environment, `loadConfig` evaluates `process.env.PAPER_TRADE ===
'true'` to `false`, so the loader selects LIVE mode — not the paper
mode that the documentation lists as the default.  The loader also
treats any value other than the exact string `true` as live mode. -/
theorem paper_trade_env_absent_is_live :
    paperTradeFlag none = false ∧ paperTradeFlag (some "TRUE") = false ∧
    paperTradeFlag (some "true") = true := by decide

/-- Claim C10: `placePaperOrder` accepts a BUY limit with no cash
check; when `checkPaperFills` later fills it (best ask positive and at
most the limit), cash is decremented by `fill_price × size`
unconditionally, so from the initial bankroll a large resting BUY
drives paper cash negative — while `placeFOKOrder` for the same
oversized amount fails and leaves the state unchanged. -/
theorem paper_limit_buy_no_cash_check :
    (∀ s tok side price size now,
        ((placePaperOrder s tok side price size now).1).paperCash = s.paperCash)
  ∧ (∀ s tok (o : Order) oid ask bid now,
        s.paperOrders = [(oid, o)] → o.side = OrderSide.BUY → o.tokenId = tok →
        s.filledPaperOrders.contains oid = false → 0 < ask → ask ≤ o.price →
        ((checkPaperFills s tok ask bid now).1).paperCash
          = s.paperCash - min ask o.price * o.size)
  ∧ ((checkPaperFills (placePaperOrder initialGateway "T" OrderSide.BUY (1/2) 100 0).1
        "T" (1/2) 0 1).1).paperCash < 0
  ∧ placeFOKOrder initialGateway "T" OrderSide.BUY 50 (some (1/2)) 0
      = (initialGateway, none) := by
  refine ⟨fun s tok side price size now => rfl, ?_, ?_, ?_⟩
  · intro s tok o oid ask bid now hord hside htok hfill hpos hle
    simp only [checkPaperFills, hord, checkPaperFillsGo, htok, bne_self_eq_false,
      Bool.false_eq_true, if_false, hfill, fillPriceFor, hside]
    rw [if_pos ⟨hpos, hle⟩]
    simp [applyPaperFill, hside]
  · norm_num [checkPaperFills, placePaperOrder, initialGateway, CONFIG.BANKROLL,
      checkPaperFillsGo, fillPriceFor, applyPaperFill, posAddBuy, alGet, alSet]
  · norm_num [placeFOKOrder, executePaperFAK, fokPriceEff, fokSize,
      initialGateway, CONFIG.BANKROLL]

/-- Witness for C10: a concrete resting BUY at limit 0.5 for 10 shares
fills at ask 0.4 and debits exactly `0.4 × 10`. -/
theorem paper_limit_buy_no_cash_check_witness :
    ((checkPaperFills oneBuyGateway "T" (2/5) 0 1).1).paperCash
      = 20 - min (2/5 : ℚ) (1/2) * 10 :=
  paper_limit_buy_no_cash_check.2.1 oneBuyGateway "T" oneBuyOrder "PAPER_0"
    (2/5) 0 1 rfl rfl rfl rfl (by norm_num) (by norm_num [oneBuyOrder])

/-- Claim C2: the per-order paper fill rule.  A BUY fills at
`min(best_ask, limit)` iff `best_ask > 0 ∧ best_ask ≤ limit`; a SELL
fills at `max(best_bid, limit)` iff `best_bid > 0 ∧ best_bid ≥ limit`;
a side reported as 0 never fills.  The last conjunct ties the rule to
`checkPaperFills`: a considered order is recorded as filled exactly
when the rule fires. -/
theorem paper_fill_rule (o : Order) (ask bid : ℚ) :
    (o.side = OrderSide.BUY →
        fillPriceFor o ask bid
          = if 0 < ask ∧ ask ≤ o.price then some (min ask o.price) else none)
  ∧ (o.side = OrderSide.SELL →
        fillPriceFor o ask bid
          = if 0 < bid ∧ o.price ≤ bid then some (max bid o.price) else none)
  ∧ ((fillPriceFor o ask bid).isSome ↔
        (o.side = OrderSide.BUY ∧ 0 < ask ∧ ask ≤ o.price) ∨
        (o.side = OrderSide.SELL ∧ 0 < bid ∧ o.price ≤ bid))
  ∧ (o.side = OrderSide.BUY → ask = 0 → fillPriceFor o ask bid = none)
  ∧ (o.side = OrderSide.SELL → bid = 0 → fillPriceFor o ask bid = none)
  ∧ (∀ s oid now, s.paperOrders = [(oid, o)] →
        s.filledPaperOrders.contains oid = false →
        ((checkPaperFills s o.tokenId ask bid now).1).filledPaperOrders.contains oid
          = (fillPriceFor o ask bid).isSome) := by
  refine ⟨?_, ?_, ?_, ?_, ?_, ?_⟩
  · intro hs; simp [fillPriceFor, hs]
  · intro hs; simp [fillPriceFor, hs]
  · cases hside : o.side with
    | BUY =>
        by_cases hc : 0 < ask ∧ ask ≤ o.price <;>
          simp [fillPriceFor, hside, hc]
    | SELL =>
        by_cases hc : 0 < bid ∧ o.price ≤ bid <;>
          simp [fillPriceFor, hside, hc]
  · intro hs h0; subst h0; simp [fillPriceFor, hs]
  · intro hs h0; subst h0; simp [fillPriceFor, hs]
  · intro s oid now hord hfill
    simp only [checkPaperFills, hord, checkPaperFillsGo, bne_self_eq_false,
      Bool.false_eq_true, if_false, hfill]
    cases hfp : fillPriceFor o ask bid with
    | none =>
        simp only [hfp]
        simpa [List.contains, List.elem_eq_mem] using hfill
    | some fp =>
        simp only [hfp, Option.isSome_some]
        cases hside : o.side <;>
          simp [applyPaperFill, hside, List.contains, List.elem_eq_mem]

/-- Witness for C2: a concrete BUY order at limit 0.5 against ask 0.4
fills at `min(0.4, 0.5)`, and against an empty ask side (0) does not. -/
theorem paper_fill_rule_witness :
    fillPriceFor oneBuyOrder (2/5) 0
      = (if 0 < (2/5 : ℚ) ∧ (2/5 : ℚ) ≤ oneBuyOrder.price
          then some (min (2/5 : ℚ) oneBuyOrder.price) else none)
  ∧ fillPriceFor oneBuyOrder 0 (3/5) = none :=
  ⟨(paper_fill_rule oneBuyOrder (2/5) 0).1 rfl,
   (paper_fill_rule oneBuyOrder 0 (3/5)).2.2.2.1 rfl rfl⟩

/-- Claim C3: a paper FOK order that fails (insufficient cash for a
BUY, or an absent/short position for a SELL) performs no state change;
a successful one never enters the open-order set but is recorded in
the filled-order index, so fill-check passes never see it. -/
theorem fok_failure_no_state_change (s : GatewayState) (tok : String)
    (side : OrderSide) (amount : ℚ) (price? : Option ℚ) (now : ℚ) :
    ((placeFOKOrder s tok side amount price? now).2 = none →
        (placeFOKOrder s tok side amount price? now).1 = s)
  ∧ (side = OrderSide.BUY → s.isExecutingTrade = false → s.paperCash < amount →
        placeFOKOrder s tok side amount price? now = (s, none))
  ∧ (side = OrderSide.SELL → s.isExecutingTrade = false →
        (∀ p, alGet s.paperPositions tok = some p → p.shares < amount) →
        placeFOKOrder s tok side amount price? now = (s, none))
  ∧ (∀ s' oid, placeFOKOrder s tok side amount price? now = (s', some oid) →
        s'.paperOrders = s.paperOrders ∧
        s'.filledPaperOrders.contains oid = true) := by
  have hne : fokPriceEff price? ≠ 0 := by
    rcases price? with _ | p
    · norm_num [fokPriceEff]
    · by_cases hp : p = 0 <;> simp [fokPriceEff, hp]
  constructor
  · intro hnone
    by_cases hex : s.isExecutingTrade
    · simp [placeFOKOrder, hex]
    · simp only [placeFOKOrder, hex, Bool.false_eq_true, if_false] at hnone ⊢
      by_cases hb : (executePaperFAK s tok side (fokPriceEff price?)
          (fokSize side amount (fokPriceEff price?)) now).1 = true
      · rw [if_pos hb] at hnone
        simp at hnone
      · rw [if_neg hb]
  constructor
  · intro hside hex hcash
    subst hside
    have hfail : executePaperFAK s tok OrderSide.BUY (fokPriceEff price?)
        (fokSize OrderSide.BUY amount (fokPriceEff price?)) now = (false, s) := by
      have hcost : fokPriceEff price? * (amount / fokPriceEff price?) = amount := by
        field_simp
      simp only [executePaperFAK, fokSize, hcost]
      rw [if_neg (not_le.mpr hcash)]
    simp [placeFOKOrder, hex, hfail]
  constructor
  · intro hside hex hpos
    subst hside
    have hfail : executePaperFAK s tok OrderSide.SELL (fokPriceEff price?)
        (fokSize OrderSide.SELL amount (fokPriceEff price?)) now = (false, s) := by
      simp only [executePaperFAK, fokSize]
      cases hg : alGet s.paperPositions tok
      · rfl
      · next p =>
          have hlt : ¬ (p.shares ≥ amount) := not_le.mpr (hpos p hg)
          simp only []
          rw [if_neg hlt]
    simp [placeFOKOrder, hex, hfail]
  · intro s' oid hsucc
    by_cases hex : s.isExecutingTrade
    · simp [placeFOKOrder, hex] at hsucc
    · simp only [placeFOKOrder, hex, Bool.false_eq_true, if_false] at hsucc
      have hk := executePaperFAK_keeps_orders s tok side (fokPriceEff price?)
        (fokSize side amount (fokPriceEff price?)) now
      by_cases hb : (executePaperFAK s tok side (fokPriceEff price?)
          (fokSize side amount (fokPriceEff price?)) now).1 = true
      · rw [if_pos hb, Prod.mk.injEq] at hsucc
        obtain ⟨h1, h2⟩ := hsucc
        rw [Option.some.injEq] at h2
        subst h2
        subst h1
        exact ⟨hk.1, by simp [List.contains, List.elem_eq_mem]⟩
      · rw [if_neg hb] at hsucc
        simp at hsucc

/-- Witness for C3: from a state with cash 20, a FOK BUY for amount 50
fails and the state is returned unchanged. -/
theorem fok_failure_no_state_change_witness :
    placeFOKOrder oneBuyGateway "T" OrderSide.BUY 50 none 0 = (oneBuyGateway, none) :=
  (fok_failure_no_state_change oneBuyGateway "T" OrderSide.BUY 50 none 0).2.1
    rfl rfl (by norm_num [oneBuyGateway])

/-- Claim C1 (code bug): after the breakeven trigger fires (entry 0.70,
bid 0.72, profit 0.02 ≥ 0.015) the record carries
`breakEvenTriggered = true` and `fixedStopDist = 0`; but on the next
monitor evaluation the JS truthiness test `if (fixedStopDist)` treats
the stored `0` as absent, so the stop distance reverts to the fixed
0.04 and a bid of 0.69 — strictly between 0 and the entry price — does
NOT trigger the exit path: the position stays active and the gateway
is untouched. -/
theorem breakeven_stop_reverts_after_trigger :
    c1Rec1.breakEvenTriggered = true
  ∧ c1Rec1.fixedStopDist = some 0
  ∧ jsStopDistance c1Rec1 = CONFIG.FIXED_STOP_LOSS
  ∧ ((0 : ℚ) < 69/100 ∧ (69/100 : ℚ) < c1Buy.price)
  ∧ alHas (c1Step2.1).activePositions "trade_0" = true
  ∧ c1Step2.2 = c1Step1.2 := by
  norm_num [c1Step2, c1Step1, c1Rec1, c1Strategy, c1Gateway, c1Buy,
    monitorPosition, jsStopDistance, updateWherePresent, findPendingSell,
    alGet, alSet, alHas, alDelete, CONFIG.FIXED_STOP_LOSS, CONFIG.BREAKEVEN_TRIGGER]

/-- Claim C4: while the circuit breaker is engaged, `shouldEnterTrade`
rejects every entry and `executeTrade` (the only creator of FILLED BUY
records) is a no-op; `checkCircuitBreaker` releases the breaker only
when the time gate (≥ MIN_COOLDOWN_MS since the stop-loss) and the
stability gate (counter reaching STABILITY_TICKS_REQUIRED with this
observation) hold simultaneously, and any observation of a new low
(0 < bid < crash-low) resets the counter to 0 and keeps cooling. -/
theorem circuit_breaker_blocks_and_release (st : StrategyState)
    (h : st.circuitBreaker.isCoolingDown = true) :
    (∀ spot strike t cp now cash,
        ((shouldEnterTrade st spot strike t cp now cash).2).shouldTrade = false)
  ∧ (∀ gw mi dir book now, executeTrade st gw mi dir book now = (st, gw, none))
  ∧ (∀ bid now, (checkCircuitBreaker st bid now).2 = false →
        CONFIG.MIN_COOLDOWN_MS ≤ now - st.circuitBreaker.lastStopLossTime
      ∧ CONFIG.STABILITY_TICKS_REQUIRED ≤ stabilityObserved st bid
      ∧ ¬ (0 < bid ∧ bid < st.circuitBreaker.crashLowPrice)
      ∧ ((checkCircuitBreaker st bid now).1).circuitBreaker.isCoolingDown = false)
  ∧ (∀ bid now, 0 < bid → bid < st.circuitBreaker.crashLowPrice →
        ((checkCircuitBreaker st bid now).1).circuitBreaker.stabilityCounter = 0
      ∧ (checkCircuitBreaker st bid now).2 = true) := by
  refine ⟨?_, ?_, ?_, ?_⟩
  · intro spot strike t cp now cash
    by_cases hsl : st.sessionState.isSessionLocked
    · simp [shouldEnterTrade, hsl, noTrade]
    · cases cp with
      | none => simp [shouldEnterTrade, hsl, shouldEnterTradeCore, h, noTrade]
      | some p =>
          by_cases hd : (0 : ℚ) < spot - strike <;>
            simp [shouldEnterTrade, hsl, hd, shouldEnterTradeCore, h, noTrade] <;>
            split_ifs <;>
            simp [noTrade]
  · intro gw mi dir book now
    by_cases hp : hasPendingTrades st gw.paperCash = true
    · simp [executeTrade, hp]
    · simp [executeTrade, hp, h]
  · intro bid now hrel
    by_cases ht : now - st.circuitBreaker.lastStopLossTime < CONFIG.MIN_COOLDOWN_MS
    · exfalso
      by_cases hlow : bid < st.circuitBreaker.crashLowPrice ∧ 0 < bid <;>
        by_cases hup : st.circuitBreaker.crashLowPrice < bid <;>
        simp [checkCircuitBreaker, h, ht, hlow, hup] at hrel
    · by_cases hlow : bid < st.circuitBreaker.crashLowPrice ∧ 0 < bid
      · exfalso
        simp [checkCircuitBreaker, h, ht, hlow] at hrel
      · by_cases hup : st.circuitBreaker.crashLowPrice < bid
        · by_cases hcnt : CONFIG.STABILITY_TICKS_REQUIRED ≤ st.circuitBreaker.stabilityCounter + 1
          · refine ⟨not_lt.mp ht, ?_, ?_, ?_⟩
            · simpa [stabilityObserved, hup] using hcnt
            · intro hc; exact hlow ⟨hc.2, hc.1⟩
            · simp [checkCircuitBreaker, h, ht, hlow, hup, hcnt]
          · exfalso
            simp [checkCircuitBreaker, h, ht, hlow, hup, hcnt] at hrel
        · by_cases hcnt : CONFIG.STABILITY_TICKS_REQUIRED ≤ st.circuitBreaker.stabilityCounter
          · refine ⟨not_lt.mp ht, ?_, ?_, ?_⟩
            · simpa [stabilityObserved, hup] using hcnt
            · intro hc; exact hlow ⟨hc.2, hc.1⟩
            · simp [checkCircuitBreaker, h, ht, hlow, hup, hcnt]
          · exfalso
            simp [checkCircuitBreaker, h, ht, hlow, hup, hcnt] at hrel
  · intro bid now h0 hlt
    by_cases ht : now - st.circuitBreaker.lastStopLossTime < CONFIG.MIN_COOLDOWN_MS <;>
      simp [checkCircuitBreaker, h, ht, hlt, h0]

/-- Witness for C4: with the breaker engaged (crash-low 0.60), entry
is rejected, and a new low at bid 0.50 resets the counter. -/
theorem circuit_breaker_blocks_and_release_witness :
    ((shouldEnterTrade coolingStrategy 1 2 300 none 0 5).2).shouldTrade = false
  ∧ ((checkCircuitBreaker coolingStrategy (1/2) 0).1).circuitBreaker.stabilityCounter = 0 :=
  ⟨(circuit_breaker_blocks_and_release coolingStrategy rfl).1 1 2 300 none 0 5,
   ((circuit_breaker_blocks_and_release coolingStrategy rfl).2.2.2 (1/2) 0
      (by norm_num) (by norm_num [coolingStrategy, freshStrategy])).1⟩

/-- Counterexample to claim C6 as stated: rotation does NOT clear the
QuantEngine price ring.  From a state whose quant ring holds one
sample, `resetForNewMarket` (with the gateway wipe) leaves the ring
non-empty: the strategy never calls into its QuantEngine on reset. -/
theorem rotation_keeps_quant_ring :
    ((resetForNewMarket c6Strategy initialGateway 5).1).quantHistory ≠ [] := by
  simp [resetForNewMarket, c6Strategy, freshStrategy, clearAllState]

/-- Claim C6 amended: after rotation the ledger, active positions,
trading lock, circuit breaker, session state, the strategy's own
price-history buffer, and the gateway's orders/positions/filled-set
are all empty or default — but the QuantEngine's price ring is
carried over unchanged. -/
theorem rotation_resets_all_but_quant_ring (st : StrategyState)
    (gw : GatewayState) (now : ℚ) :
    ((resetForNewMarket st gw now).1).tradeRecords = []
  ∧ ((resetForNewMarket st gw now).1).activePositions = []
  ∧ ((resetForNewMarket st gw now).1).isTradingLocked = false
  ∧ ((resetForNewMarket st gw now).1).circuitBreaker =
      { isCoolingDown := false, crashLowPrice := 0, stabilityCounter := 0,
        lastStopLossTime := 0, crashTokenId := "", lastTradeTime := 0 }
  ∧ ((resetForNewMarket st gw now).1).sessionState.sessionPnL = 0
  ∧ ((resetForNewMarket st gw now).1).sessionState.isSessionLocked = false
  ∧ ((resetForNewMarket st gw now).1).priceHistory.upBids = []
  ∧ ((resetForNewMarket st gw now).1).priceHistory.downBids = []
  ∧ ((resetForNewMarket st gw now).2).paperOrders = []
  ∧ ((resetForNewMarket st gw now).2).paperPositions = []
  ∧ ((resetForNewMarket st gw now).2).filledPaperOrders = []
  ∧ ((resetForNewMarket st gw now).2).isExecutingTrade = false
  ∧ ((resetForNewMarket st gw now).1).quantHistory = st.quantHistory := by
  simp [resetForNewMarket, clearAllState]

/-- Counterexample to claim C7 as stated: with every gate passing and
available cash 0.50 < MIN_ORDER_SIZE (1.00), `shouldEnterTrade` still
answers "trade" — it has no MIN_ORDER_SIZE check, and the cash test
inside `hasPendingTrades` (`cash < cash × 0.10`) cannot fire for
non-negative cash. -/
theorem should_enter_ignores_min_order_size :
    ((shouldEnterTrade freshStrategy 89800 89750 400
        (some ⟨7/10, 69/100, 3/10, 29/100⟩) 100000 (1/2)).2).shouldTrade = true
  ∧ (1/2 : ℚ) < CONFIG.MIN_ORDER_SIZE := by
  constructor
  · norm_num [shouldEnterTrade, freshStrategy, freshSession, freshBreaker,
      freshBuffer, shouldEnterTradeCore, hasPendingTrades, updatePriceHistory,
      updatePrice, CONFIG.MIN_ENTRY_PRICE, CONFIG.MAX_ENTRY_PRICE,
      CONFIG.MIN_TRADE_INTERVAL_MS, CONFIG.TREND_LOOKBACK_TICKS, alHas, alGet]
  · norm_num [CONFIG.MIN_ORDER_SIZE]

/-- Claim C7 amended: `shouldEnterTrade` performs no MIN_ORDER_SIZE
cash check (its cash gate is insensitive to any non-negative cash
level); the insufficient-cash rejection happens in `executeTrade`,
which — under the same gates — places no order and releases the lock
when available cash is below MIN_ORDER_SIZE. -/
theorem entry_cash_gate_in_execute_trade (st : StrategyState) (gw : GatewayState)
    (mi : MarketInfo) (dir : TokenType) (book : BookTop) (now : ℚ)
    (h1 : hasPendingTrades st gw.paperCash = false)
    (h2 : st.circuitBreaker.isCoolingDown = false)
    (h3 : 0 < book.bestAsk)
    (h4 : book.bestAsk - book.bestBid ≤ CONFIG.MAX_ALLOWED_SPREAD)
    (h5 : gw.paperCash < CONFIG.MIN_ORDER_SIZE)
    (h6 : 0 ≤ gw.paperCash) :
    executeTrade st gw mi dir book now = ({ st with isTradingLocked := false }, gw, none)
  ∧ (∀ c₁ c₂ : ℚ, 0 ≤ c₁ → 0 ≤ c₂ →
      hasPendingTrades st c₁ = hasPendingTrades st c₂) := by
  have hc : ∀ c : ℚ, 0 ≤ c → ¬ (c < c * (1/10)) := by
    intro c hc0
    exact not_lt.mpr (mul_le_of_le_one_right hc0 (by norm_num))
  constructor
  · have hta : gw.paperCash * CONFIG.TRADE_SIZE_PCT < CONFIG.MIN_ORDER_SIZE := by
      have hle : gw.paperCash * CONFIG.TRADE_SIZE_PCT ≤ gw.paperCash :=
        mul_le_of_le_one_right h6 (by norm_num [CONFIG.TRADE_SIZE_PCT])
      exact lt_of_le_of_lt hle h5
    simp [executeTrade, h1, h2, not_le.mpr h3, not_lt.mpr h4, hta, h5]
  · intro c₁ c₂ hc1 hc2
    simp only [hasPendingTrades, hc c₁ hc1, hc c₂ hc2, if_false]

/-- Witness for C7's amended claim: a fresh strategy with cash 0.50
gets no order from `executeTrade`. -/
theorem entry_cash_gate_in_execute_trade_witness :
    executeTrade freshStrategy { initialGateway with paperCash := 1/2 }
        ⟨"m", "U", "D"⟩ TokenType.UP ⟨7/10, 69/100⟩ 0
      = ({ freshStrategy with isTradingLocked := false },
         { initialGateway with paperCash := 1/2 }, none) :=
  (entry_cash_gate_in_execute_trade freshStrategy
      { initialGateway with paperCash := 1/2 } ⟨"m", "U", "D"⟩ TokenType.UP
      ⟨7/10, 69/100⟩ 0
      (by norm_num [hasPendingTrades, freshStrategy, initialGateway, alHas, alGet])
      rfl (by norm_num) (by norm_num [CONFIG.MAX_ALLOWED_SPREAD])
      (by norm_num [initialGateway, CONFIG.MIN_ORDER_SIZE])
      (by norm_num [initialGateway])).1

/-- Helper: `applyPaperFill` only touches cash and positions. -/
theorem applyPaperFill_keeps_orders (s : GatewayState) (tok : String) (o : Order)
    (fp now : ℚ) :
    ((applyPaperFill s tok o fp now).paperOrders = s.paperOrders)
  ∧ ((applyPaperFill s tok o fp now).filledPaperOrders = s.filledPaperOrders) := by
  cases hside : o.side
  · simp [applyPaperFill, hside]
  · simp only [applyPaperFill, hside]
    cases hg : alGet s.paperPositions tok
    · simp
    · dsimp only
      split <;> simp

/-- Helper: the fill-check loop skips every entry of a foreign token
without touching the state. -/
theorem checkPaperFillsGo_no_match (tok : String) (ask bid now : ℚ) :
    ∀ (l : List (String × Order)) (s : GatewayState),
      (∀ e ∈ l, ¬ e.2.tokenId = tok) →
      checkPaperFillsGo tok ask bid now l s = (s, none) := by
  intro l
  induction l with
  | nil => intro s _; rfl
  | cons e rest ih =>
      intro s hl
      obtain ⟨k, o⟩ := e
      have he : ¬ o.tokenId = tok := hl (k, o) (List.mem_cons_self (k, o) rest)
      simp only [checkPaperFillsGo]
      rw [if_pos (by simpa using he)]
      exact ih s (fun e' he' => hl e' (List.mem_cons_of_mem _ he'))

/-- Helper: when exactly one entry of the iteration list carries the
checked token, the fill-check loop behaves as the one-order step. -/
theorem checkPaperFillsGo_single_match (tok : String) (ask bid now : ℚ) :
    ∀ (l : List (String × Order)) (s : GatewayState) (oid : String) (o : Order),
      l.filter (fun e => e.2.tokenId == tok) = [(oid, o)] →
      checkPaperFillsGo tok ask bid now l s =
        (if s.filledPaperOrders.contains oid then
          ({ s with paperOrders := alDelete s.paperOrders oid }, none)
        else
          match fillPriceFor o ask bid with
          | none => (s, none)
          | some fp =>
              let s₁ := applyPaperFill s tok o fp now
              let s₂ := { s₁ with
                filledPaperOrders := s₁.filledPaperOrders ++ [oid],
                paperOrders := alDelete s₁.paperOrders oid }
              (s₂, alGet s₂.paperPositions tok)) := by
  intro l
  induction l with
  | nil => intro s oid o hf; simp at hf
  | cons e rest ih =>
      intro s oid o hf
      obtain ⟨k, x⟩ := e
      by_cases hx : x.tokenId = tok
      · have hfc : List.filter (fun e => e.2.tokenId == tok) ((k, x) :: rest)
            = (k, x) :: List.filter (fun e => e.2.tokenId == tok) rest := by
          simp [List.filter_cons, hx]
        rw [hfc] at hf
        rw [List.cons_eq_cons] at hf
        obtain ⟨hhead, hrest⟩ := hf
        rw [Prod.mk.injEq] at hhead
        obtain ⟨hk, hxo⟩ := hhead
        subst hk
        subst hxo
        have hnm : ∀ e ∈ rest, ¬ e.2.tokenId = tok := by
          intro e he hcontra
          have hmem : e ∈ List.filter (fun e => e.2.tokenId == tok) rest :=
            List.mem_filter.mpr ⟨he, by simpa using hcontra⟩
          rw [hrest] at hmem
          simp at hmem
        simp only [checkPaperFillsGo]
        rw [if_neg (by simpa using hx)]
        by_cases hcont : s.filledPaperOrders.contains k = true
        · rw [if_pos hcont, if_pos hcont]
          exact checkPaperFillsGo_no_match tok ask bid now rest _ hnm
        · rw [if_neg hcont, if_neg hcont]
          cases hfp : fillPriceFor x ask bid
          · exact checkPaperFillsGo_no_match tok ask bid now rest s hnm
          · rfl
      · have hfc : List.filter (fun e => e.2.tokenId == tok) ((k, x) :: rest)
            = List.filter (fun e => e.2.tokenId == tok) rest := by
          simp [List.filter_cons, hx]
        rw [hfc] at hf
        simp only [checkPaperFillsGo]
        rw [if_pos (by simpa using hx)]
        exact ih s oid o hf

/-- Counterexample to claim C5 as stated: `checkPaperFills` returns
after the FIRST fill, so with two eligible resting BUY orders a second
invocation fills the second order and changes cash again: one pass
ends at cash 16, two passes at cash 12. -/
theorem paper_fill_check_not_idempotent :
    c5Once.paperCash = 16 ∧ c5Twice.paperCash = 12
  ∧ c5Twice.paperCash ≠ c5Once.paperCash := by
  have hid : ("PAPER_" ++ toString (1 : Nat)) ≠ ("PAPER_" ++ toString (0 : Nat)) := by
    decide
  norm_num [c5Twice, c5Once, twoOrdersGateway, placePaperOrder, initialGateway,
    CONFIG.BANKROLL, checkPaperFills, checkPaperFillsGo, fillPriceFor,
    applyPaperFill, posAddBuy, alGet, alSet, alDelete, hid]

/-- Claim C5 amended: the paper fill check is idempotent on cash and
positions whenever the state holds at most one open order for the
checked token (the double-pass divergence needs two eligible orders). -/
theorem paper_fill_check_idempotent_single_order (s : GatewayState) (tok : String)
    (ask bid now : ℚ)
    (h : (s.paperOrders.filter (fun e => e.2.tokenId == tok)).length ≤ 1) :
    ((checkPaperFills (checkPaperFills s tok ask bid now).1 tok ask bid now).1).paperCash
      = ((checkPaperFills s tok ask bid now).1).paperCash
  ∧ ((checkPaperFills (checkPaperFills s tok ask bid now).1 tok ask bid now).1).paperPositions
      = ((checkPaperFills s tok ask bid now).1).paperPositions := by
  rcases hf : s.paperOrders.filter (fun e => e.2.tokenId == tok) with _ | ⟨⟨oid, o⟩, rest⟩
  · have hnm : ∀ e ∈ s.paperOrders, ¬ e.2.tokenId = tok := by
      intro e he hcontra
      have hmem : e ∈ s.paperOrders.filter (fun e => e.2.tokenId == tok) :=
        List.mem_filter.mpr ⟨he, by simpa using hcontra⟩
      rw [hf] at hmem
      simp at hmem
    have h1 : checkPaperFills s tok ask bid now = (s, none) :=
      checkPaperFillsGo_no_match tok ask bid now s.paperOrders s hnm
    simp only [h1]
    exact ⟨trivial, trivial⟩
  · have hrest : rest = [] := by
      rw [hf] at h
      simpa using h
    subst hrest
    have hdel : ∀ s' : GatewayState, s'.paperOrders = alDelete s.paperOrders oid →
        checkPaperFills s' tok ask bid now = (s', none) := by
      intro s' hord
      apply checkPaperFillsGo_no_match tok ask bid now s'.paperOrders s'
      intro e he hcontra
      rw [hord] at he
      simp only [alDelete, List.mem_filter] at he
      obtain ⟨hmem, hne⟩ := he
      have hmem2 : e ∈ s.paperOrders.filter (fun e => e.2.tokenId == tok) :=
        List.mem_filter.mpr ⟨hmem, by simpa using hcontra⟩
      rw [hf] at hmem2
      simp only [List.mem_singleton] at hmem2
      rw [hmem2] at hne
      simp at hne
    have hfix : ∀ s' : GatewayState, s'.paperOrders = alDelete s.paperOrders oid →
        ((checkPaperFills s' tok ask bid now).1).paperCash = s'.paperCash ∧
        ((checkPaperFills s' tok ask bid now).1).paperPositions = s'.paperPositions := by
      intro s' hord
      rw [hdel s' hord]
      exact ⟨rfl, rfl⟩
    have h1 := checkPaperFillsGo_single_match tok ask bid now s.paperOrders s oid o hf
    have h1' : checkPaperFills s tok ask bid now = _ := h1
    by_cases hcont : s.filledPaperOrders.contains oid = true
    · rw [if_pos hcont] at h1'
      simp only [h1']
      exact ⟨(hfix _ rfl).1, (hfix _ rfl).2⟩
    · rw [if_neg hcont] at h1'
      cases hfp : fillPriceFor o ask bid with
      | none =>
          rw [hfp] at h1'
          simp only [h1']
          exact ⟨trivial, trivial⟩
      | some fp =>
          rw [hfp] at h1'
          simp only [h1']
          have hord : alDelete (applyPaperFill s tok o fp now).paperOrders oid
              = alDelete s.paperOrders oid := by
            rw [(applyPaperFill_keeps_orders s tok o fp now).1]
          exact ⟨(hfix _ hord).1, (hfix _ hord).2⟩

/-- Witness for the amended C5: a gateway with a single resting BUY
order is unchanged by a second fill-check pass. -/
theorem paper_fill_check_idempotent_single_order_witness :
    ((checkPaperFills (checkPaperFills oneBuyGateway "T" (2/5) 0 1).1 "T" (2/5) 0 1).1).paperCash
      = ((checkPaperFills oneBuyGateway "T" (2/5) 0 1).1).paperCash :=
  (paper_fill_check_idempotent_single_order oneBuyGateway "T" (2/5) 0 1
    (by simp [oneBuyGateway, oneBuyOrder])).1

/-- Claim C9: with fewer than 5 samples the volatility is exactly 10;
otherwise (over a positive observed span) it equals
`max(5, σ_tick × √ticks_per_minute)` with σ_tick the population
standard deviation of the first differences and
`ticks_per_minute = (n / span_seconds) × 60`; and it is ≥ 5 in every
case. -/
theorem volatility_formula_and_floor (h : List PricePoint) :
    (h.length < 5 → getVolatilityPerMinute h = 10)
  ∧ (5 ≤ h.length → 0 < spanSeconds h →
      getVolatilityPerMinute h =
        max 5 (specPopStdDev (priceChanges h) *
          Real.sqrt ((specTicksPerMinute h : ℚ) : ℝ)))
  ∧ (5 : ℝ) ≤ getVolatilityPerMinute h := by
  refine ⟨?_, ?_, ?_⟩
  · intro hlt
    simp [getVolatilityPerMinute, hlt]
  · intro hge hspan
    have hnlt : ¬ h.length < 5 := not_lt.mpr hge
    simp [getVolatilityPerMinute, specPopStdDev, specMean, specTicksPerMinute,
      ticksPerMinute, hnlt, hspan]
  · by_cases hlt : h.length < 5
    · norm_num [getVolatilityPerMinute, hlt]
    · simp only [getVolatilityPerMinute, hlt, if_false]
      exact le_max_left 5 _

/-- Witness for C9: five samples one second apart satisfy both
hypotheses and the stated formula. -/
theorem volatility_formula_and_floor_witness :
    (5 ≤ c9History.length ∧ 0 < spanSeconds c9History)
  ∧ getVolatilityPerMinute c9History =
      max 5 (specPopStdDev (priceChanges c9History) *
        Real.sqrt ((specTicksPerMinute c9History : ℚ) : ℝ)) :=
  ⟨⟨by norm_num [c9History], by norm_num [spanSeconds, c9History]⟩,
   (volatility_formula_and_floor c9History).2.1 (by norm_num [c9History])
     (by norm_num [spanSeconds, c9History])⟩

end PaperTrade
